import Mathlib

/-!
Shallow embedding of the codec bridging layer: the xvid video bridge
(decoder/encoder sessions) and the lame audio bridge (encoder session).

Each bridge function is a thin stateful wrapper around an external codec
library.  The library calls themselves are external collaborators, so their
outcomes (return codes, stats structures, allocated handles) enter the
embedding as explicit oracle arguments; everything the bridge code itself
computes (plane geometry, configuration structures, state updates, return
values, writes through output pointers) is modelled directly from the C
source.
-/

namespace Bridge

/-- A raw pointer value; `0` stands for `NULL`. -/
abbrev Ptr := Nat

/-- The `NULL` pointer. -/
def nullPtr : Ptr := 0

/-- The plane geometry a video call writes into the xvid frame structure:
byte offsets of the three planes from the start of the contiguous YUV
buffer, and the three row strides. -/
structure PlaneLayout where
  offsetY : Int
  offsetU : Int
  offsetV : Int
  strideY : Int
  strideU : Int
  strideV : Int
  deriving Repr, DecidableEq

/-- The plane offsets and strides computed from a session's width and
height, exactly as in the C source (both `decode_frame` and
`encode_frame` compute the same expressions):
plane 0 at the buffer start, plane 1 at `w*h`, plane 2 at `w*h*5/4`;
strides `w`, `w/2`, `w/2`.  C division on `int` truncates toward zero,
which is `Int.tdiv`. -/
def planeLayout (w h : Int) : PlaneLayout :=
  { offsetY := 0
    offsetU := w * h
    offsetV := (w * h * 5).tdiv 4
    strideY := w
    strideU := w.tdiv 2
    strideV := w.tdiv 2 }

/-! ### Video decoder session -/

/-- The `decoder_state` struct of the C source. -/
structure decoder_state where
  decoder_handle : Ptr
  width : Int
  height : Int
  deriving Repr, DecidableEq

/-- The fields of `xvid_dec_stats_t` the bridge reads after a decode step:
the frame type, and the parsed stream dimensions (`data.vol.width`,
`data.vol.height`, meaningful when `type` is the header sentinel `-1`).
These are produced by the external decoder, so they are oracle input. -/
structure xvid_dec_stats where
  type : Int
  vol_width : Int
  vol_height : Int
  deriving Repr, DecidableEq

/-- Everything observable about one `decode_frame` call: the plane
geometry handed to the codec for this call, the session state after the
call, the value returned to the caller, and the values written through
each of the three optional output pointers (`none` when the pointer was
`NULL` and nothing was written). -/
structure DecodeFrameResult where
  layout : PlaneLayout
  newState : decoder_state
  ret : Int
  out_type : Option Int
  out_width : Option Int
  out_height : Option Int
  deriving Repr, DecidableEq

/-- `decode_frame` from the C source.  `decRet` and `decStats` are the
outcome of the external `xvid_decore(..., XVID_DEC_DECODE, ...)` call;
`hasOutType`/`hasOutWidth`/`hasOutHeight` record which of the three
output pointers are non-`NULL`.  The geometry is computed from the
session's width/height before the decode; afterwards, iff the stats
report frame type `-1`, the session's width/height are overwritten with
the parsed VOL dimensions; the output pointers are then written from the
(possibly updated) state, and the decode's return code is returned. -/
def decode_frame (state : decoder_state) (decRet : Int)
    (decStats : xvid_dec_stats)
    (hasOutType hasOutWidth hasOutHeight : Bool) : DecodeFrameResult :=
  let layout := planeLayout state.width state.height
  let state' :=
    if decStats.type = -1 then
      { state with width := decStats.vol_width, height := decStats.vol_height }
    else state
  { layout := layout
    newState := state'
    ret := decRet
    out_type := if hasOutType then some decStats.type else none
    out_width := if hasOutWidth then some state'.width else none
    out_height := if hasOutHeight then some state'.height else none }

/-- Outcome of a session `Create` call, with the memory hazards made
explicit.  `ok` is a successful creation; `fail` is a clean `NULL`
return with nothing left allocated; `nullDeref h` is the undefined
behaviour of writing a field through a `NULL` wrapper pointer while the
successfully created codec handle `h` is leaked (never destroyed). -/
inductive CreateOutcome (σ : Type) where
  | ok : σ → CreateOutcome σ
  | fail : CreateOutcome σ
  | nullDeref : Ptr → CreateOutcome σ
  deriving Repr, DecidableEq

/-- The `xvid_dec_create_t` fields the bridge fills in before asking the
library to create a decoder context. -/
structure xvid_dec_create_config where
  width : Int
  height : Int
  deriving Repr, DecidableEq

/-- `init_decoder` from the C source.  `mallocOk` is whether the
wrapper-level `malloc` succeeded; `createRet` and `createHandle` are the
outcome of the external `xvid_decore(..., XVID_DEC_CREATE, ...)` call.
The C code asks the library for a context with width/height `0`, then
mallocs the wrapper, then checks only the library's return code: on a
nonzero code it frees the wrapper (safe even for `NULL`) and returns
`NULL`; otherwise it writes the handle and the caller's dimension hints
into the wrapper *without checking the malloc result*, so a failed
malloc with a successful context creation dereferences `NULL` and leaks
the context. -/
def init_decoder (width height : Int) (mallocOk : Bool)
    (createRet : Int) (createHandle : Ptr) :
    xvid_dec_create_config × CreateOutcome decoder_state :=
  ({ width := 0, height := 0 },
   if createRet ≠ 0 then
     CreateOutcome.fail
   else if mallocOk then
     CreateOutcome.ok
       { decoder_handle := createHandle, width := width, height := height }
   else
     CreateOutcome.nullDeref createHandle)

/-- A session pointer as the close functions see it: `NULL`, a live
allocation, or a dangling pointer to an allocation already freed. -/
inductive SessionMem (σ : Type) where
  | null : SessionMem σ
  | live : σ → SessionMem σ
  | freed : SessionMem σ
  deriving Repr, DecidableEq

/-- Outcome of a video close call: nothing done (`NULL` argument), the
session torn down (recording whether a codec handle was destroyed), or a
use-after-free fault from touching a freed allocation. -/
inductive CloseOutcome where
  | noop : CloseOutcome
  | closed : Bool → CloseOutcome
  | fault : CloseOutcome
  deriving Repr, DecidableEq

/-- `close_decoder` from the C source: `if (state)` guards everything, a
non-`NULL` live state has its codec handle destroyed when non-`NULL` and
is then freed.  A dangling (already freed) pointer passes the `NULL`
check and is read and freed again: undefined behaviour. -/
def close_decoder :
    SessionMem decoder_state → CloseOutcome × SessionMem decoder_state
  | SessionMem.null => (CloseOutcome.noop, SessionMem.null)
  | SessionMem.live s =>
      (CloseOutcome.closed (decide (s.decoder_handle ≠ nullPtr)),
       SessionMem.freed)
  | SessionMem.freed => (CloseOutcome.fault, SessionMem.freed)

/-! ### Video encoder session -/

/-- The `encoder_state` struct of the C source. -/
structure encoder_state where
  encoder_handle : Ptr
  width : Int
  height : Int
  deriving Repr, DecidableEq

/-- The `xvid_enc_create_t` fields the bridge fills in before asking the
library to create an encoder context (pointer fields hold `nullPtr` for
`NULL`). -/
structure xvid_enc_create_config where
  width : Int
  height : Int
  fincr : Int
  fbase : Int
  zones : Ptr
  num_zones : Int
  plugins : Ptr
  num_plugins : Int
  num_threads : Int
  max_bframes : Int
  max_key_interval : Int
  global : Int
  deriving Repr, DecidableEq

/-- The encoder-creation configuration computed by `init_encoder` from
its parameters, field by field as in the C source. -/
def encCreateConfig (width height bitrate fps_num fps_den : Int) :
    xvid_enc_create_config :=
  { width := width
    height := height
    fincr := fps_den
    fbase := fps_num
    zones := nullPtr
    num_zones := 0
    plugins := nullPtr
    num_plugins := 0
    num_threads := 0
    max_bframes := 0
    max_key_interval := 250
    global := 0 }

/-- `init_encoder` from the C source.  Analogous to `init_decoder`: the
configuration is filled in, the wrapper is malloced, the library is
asked to create the context, and only the library's return code is
checked — a failed malloc with successful context creation dereferences
`NULL` and leaks the context.  The unused `bitrate` parameter mirrors
the C source, which accepts it but never stores it in the
configuration. -/
def init_encoder (width height bitrate fps_num fps_den : Int)
    (mallocOk : Bool) (createRet : Int) (createHandle : Ptr) :
    xvid_enc_create_config × CreateOutcome encoder_state :=
  (encCreateConfig width height bitrate fps_num fps_den,
   if createRet ≠ 0 then
     CreateOutcome.fail
   else if mallocOk then
     CreateOutcome.ok
       { encoder_handle := createHandle, width := width, height := height }
   else
     CreateOutcome.nullDeref createHandle)

/-- The single field of `xvid_enc_stats_t` the bridge reads after an
encode step: the length of the produced bitstream unit. -/
structure xvid_enc_stats where
  length : Int
  deriving Repr, DecidableEq

/-- Modelled from the spec: the frame-type codes of the external video
codec's public header — `XVID_TYPE_AUTO` lets the codec decide the frame
type, `XVID_TYPE_IVOP` requests an I-frame.  Their concrete numeric
values are immaterial here; only which of the two is selected matters. -/
def XVID_TYPE_AUTO : Int := 0

/-- Modelled from the spec: the I-frame request code of the external
video codec (see `XVID_TYPE_AUTO`). -/
def XVID_TYPE_IVOP : Int := 1

/-- Everything observable about one `encode_frame` call: the input plane
geometry handed to the codec, the frame-type hint passed in, and the
value returned to the caller. -/
structure EncodeFrameResult where
  layout : PlaneLayout
  frameType : Int
  ret : Int
  deriving Repr, DecidableEq

/-- `encode_frame` from the C source.  `encRet` and `encStats` are the
outcome of the external `xvid_encore(..., XVID_ENC_ENCODE, ...)` call.
The input plane geometry is computed from the session's fixed
width/height; the frame type is `XVID_TYPE_IVOP` when `force_keyframe`
is truthy (a C `int` condition, i.e. nonzero) and `XVID_TYPE_AUTO`
otherwise; a positive library result is replaced by the stats length,
any other result is returned unmodified. -/
def encode_frame (state : encoder_state) (force_keyframe : Int)
    (encRet : Int) (encStats : xvid_enc_stats) : EncodeFrameResult :=
  { layout := planeLayout state.width state.height
    frameType := if force_keyframe ≠ 0 then XVID_TYPE_IVOP else XVID_TYPE_AUTO
    ret := if encRet > 0 then encStats.length else encRet }

/-- `close_encoder` from the C source; same shape as `close_decoder`. -/
def close_encoder :
    SessionMem encoder_state → CloseOutcome × SessionMem encoder_state
  | SessionMem.null => (CloseOutcome.noop, SessionMem.null)
  | SessionMem.live s =>
      (CloseOutcome.closed (decide (s.encoder_handle ≠ nullPtr)),
       SessionMem.freed)
  | SessionMem.freed => (CloseOutcome.fault, SessionMem.freed)

/-! ### Audio encoder session -/

/-- The configuration the audio bridge writes into the codec's global
flags object through the library's setter calls. -/
structure lame_global_flags where
  num_channels : Int
  in_samplerate : Int
  out_samplerate : Int
  brate : Int
  bWriteVbrTag : Int
  deriving Repr, DecidableEq

/-- `init_lame` from the C source.  `gfpHandle` is the handle returned by
the external `lame_init()`, and `init_params_ret` is the return code of
the external `lame_init_params` parameter-validation call.  The bridge
sets the channel count, sets both sample rates to the one input rate,
converts the bitrate to kilobits by C integer division by 1000
(truncation toward zero, `Int.tdiv`), disables the VBR tag, calls the
validation step, discards its return code, and returns the handle
unconditionally. -/
def init_lame (number_of_channels sample_rate bitrate : Int)
    (gfpHandle : Ptr) (init_params_ret : Int) : Ptr × lame_global_flags :=
  (gfpHandle,
   { num_channels := number_of_channels
     in_samplerate := sample_rate
     out_samplerate := sample_rate
     brate := bitrate.tdiv 1000
     bWriteVbrTag := 0 })

/-- Outcome of the audio close call.  The wrapper has no `NULL` check of
its own: a `NULL` handle is simply forwarded to the library
(`delegatedNull`); a live context is destroyed by the library
(`closed`); a dangling pointer is read and freed again by the library —
undefined behaviour (`fault`). -/
inductive LameCloseOutcome where
  | delegatedNull : LameCloseOutcome
  | closed : LameCloseOutcome
  | fault : LameCloseOutcome
  deriving Repr, DecidableEq

/-- `close_lame` from the C source: an unconditional forward to the
library's destroy-context call, with the memory discipline of the
argument made explicit. -/
def close_lame :
    SessionMem lame_global_flags → LameCloseOutcome × SessionMem lame_global_flags
  | SessionMem.null => (LameCloseOutcome.delegatedNull, SessionMem.null)
  | SessionMem.live _ => (LameCloseOutcome.closed, SessionMem.freed)
  | SessionMem.freed => (LameCloseOutcome.fault, SessionMem.freed)

end Bridge

namespace Bridge

/-! ### Theorems -/

/-- C1: in a `decode_frame` call, a header-only result (frame type `-1`)
overwrites the session's stored width/height with the parsed VOL values
and those post-transition values are what is reported back; a picture
result uses the output-plane geometry computed from the width/height as
they were before the call; and in every outcome the frame type and the
session's current width/height are reported through each output pointer
that is supplied. -/
theorem decode_frame_header_transition_contract
    (s : decoder_state) (r : Int) (st : xvid_dec_stats) (t u v : Bool) :
    (st.type = -1 →
      (decode_frame s r st t u v).newState.width = st.vol_width ∧
      (decode_frame s r st t u v).newState.height = st.vol_height ∧
      (decode_frame s r st t u v).out_width =
        (if u then some st.vol_width else none) ∧
      (decode_frame s r st t u v).out_height =
        (if v then some st.vol_height else none)) ∧
    (st.type ≠ -1 →
      (decode_frame s r st t u v).layout = planeLayout s.width s.height) ∧
    (decode_frame s r st t u v).layout = planeLayout s.width s.height ∧
    (decode_frame s r st t u v).out_type =
      (if t then some st.type else none) ∧
    (decode_frame s r st t u v).out_width =
      (if u then some (decode_frame s r st t u v).newState.width else none) ∧
    (decode_frame s r st t u v).out_height =
      (if v then some (decode_frame s r st t u v).newState.height else none) := by
  by_cases htype : st.type = -1 <;>
    simp [decode_frame, htype]

/-- Witness for C1 at a concrete header-only call. -/
theorem decode_frame_header_transition_contract_witness :
    ((⟨-1, 320, 240⟩ : xvid_dec_stats).type = -1 →
      (decode_frame ⟨1, 0, 0⟩ 0 ⟨-1, 320, 240⟩ true true true).newState.width
          = (⟨-1, 320, 240⟩ : xvid_dec_stats).vol_width ∧
      (decode_frame ⟨1, 0, 0⟩ 0 ⟨-1, 320, 240⟩ true true true).newState.height
          = (⟨-1, 320, 240⟩ : xvid_dec_stats).vol_height ∧
      (decode_frame ⟨1, 0, 0⟩ 0 ⟨-1, 320, 240⟩ true true true).out_width =
        (if true then some (⟨-1, 320, 240⟩ : xvid_dec_stats).vol_width
         else none) ∧
      (decode_frame ⟨1, 0, 0⟩ 0 ⟨-1, 320, 240⟩ true true true).out_height =
        (if true then some (⟨-1, 320, 240⟩ : xvid_dec_stats).vol_height
         else none)) ∧
    ((⟨-1, 320, 240⟩ : xvid_dec_stats).type ≠ -1 →
      (decode_frame ⟨1, 0, 0⟩ 0 ⟨-1, 320, 240⟩ true true true).layout =
        planeLayout (0 : Int) (0 : Int)) ∧
    (decode_frame ⟨1, 0, 0⟩ 0 ⟨-1, 320, 240⟩ true true true).layout =
      planeLayout (0 : Int) (0 : Int) ∧
    (decode_frame ⟨1, 0, 0⟩ 0 ⟨-1, 320, 240⟩ true true true).out_type =
      (if true then some (⟨-1, 320, 240⟩ : xvid_dec_stats).type else none) ∧
    (decode_frame ⟨1, 0, 0⟩ 0 ⟨-1, 320, 240⟩ true true true).out_width =
      (if true then
        some (decode_frame ⟨1, 0, 0⟩ 0 ⟨-1, 320, 240⟩ true true true).newState.width
       else none) ∧
    (decode_frame ⟨1, 0, 0⟩ 0 ⟨-1, 320, 240⟩ true true true).out_height =
      (if true then
        some (decode_frame ⟨1, 0, 0⟩ 0 ⟨-1, 320, 240⟩ true true true).newState.height
       else none) :=
  decode_frame_header_transition_contract ⟨1, 0, 0⟩ 0 ⟨-1, 320, 240⟩ true true true

/-- C9: `decode_frame` modifies the session's stored width and height
exactly when the stats report the header sentinel `-1`, independently of
the decode step's result code, and never modifies the decoder handle. -/
theorem decode_frame_state_mutation
    (s : decoder_state) (r : Int) (st : xvid_dec_stats) (t u v : Bool) :
    (decode_frame s r st t u v).newState.decoder_handle = s.decoder_handle ∧
    (decode_frame s r st t u v).newState.width =
      (if st.type = -1 then st.vol_width else s.width) ∧
    (decode_frame s r st t u v).newState.height =
      (if st.type = -1 then st.vol_height else s.height) ∧
    (∀ r' : Int,
      (decode_frame s r st t u v).newState =
        (decode_frame s r' st t u v).newState) := by
  refine ⟨?_, ?_, ?_, fun r' => ?_⟩ <;>
    by_cases htype : st.type = -1 <;>
      simp [decode_frame, htype]

/-- The plane-offset law of the spec, stated over the geometry the code
computes: U at `w*h`, V at `w*h + w*h/4`, strides `w`, `w/2`, `w/2`, and
the V plane's end (its offset plus its stride times `h/2` rows) at
`w*h*3/2`. -/
def PlaneOffsetLaw (w h : Int) : Prop :=
  (planeLayout w h).offsetY = 0 ∧
  (planeLayout w h).offsetU = w * h ∧
  (planeLayout w h).offsetV = w * h + (w * h).tdiv 4 ∧
  (planeLayout w h).strideY = w ∧
  (planeLayout w h).strideU = w.tdiv 2 ∧
  (planeLayout w h).strideV = w.tdiv 2 ∧
  (planeLayout w h).offsetV + (planeLayout w h).strideV * (h.tdiv 2)
    = (w * h * 3).tdiv 2

/-- C2: for all even `w` and `h`, the plane layout computed by the video
bridge obeys the spec's plane-offset law (Y at 0 with stride `w`, U at
`w*h` with stride `w/2`, V at `w*h + w*h/4` with stride `w/2`, total
extent `w*h*3/2`), and every decode and encode call uses exactly the
layout computed from the session's current width and height. -/
theorem yuv420_plane_layout_law (w h : Int) (hw : Even w) (hh : Even h) :
    PlaneOffsetLaw w h ∧
    (∀ (s : decoder_state) (r : Int) (st : xvid_dec_stats) (t u v : Bool),
      (decode_frame s r st t u v).layout = planeLayout s.width s.height) ∧
    (∀ (e : encoder_state) (fk r : Int) (st : xvid_enc_stats),
      (encode_frame e fk r st).layout = planeLayout e.width e.height) := by
  obtain ⟨a, rfl⟩ := hw
  obtain ⟨b, rfl⟩ := hh
  have h4 : (4 : Int) ≠ 0 := by decide
  have h2 : (2 : Int) ≠ 0 := by decide
  have e1 : (a + a) * (b + b) * 5 = 4 * (5 * (a * b)) := by ring
  have e2 : (a + a) * (b + b) = 4 * (a * b) := by ring
  have e3 : a + a = 2 * a := by ring
  have e4 : b + b = 2 * b := by ring
  have e5 : 2 * a * (2 * b) * 3 = 2 * (6 * (a * b)) := by ring
  refine ⟨⟨rfl, rfl, ?_, rfl, rfl, rfl, ?_⟩,
    fun s r st t u v => rfl, fun e fk r st => rfl⟩
  · show ((a + a) * (b + b) * 5).tdiv 4
      = (a + a) * (b + b) + ((a + a) * (b + b)).tdiv 4
    rw [e1, e2, Int.mul_tdiv_cancel_left _ h4, Int.mul_tdiv_cancel_left _ h4]
    ring
  · show ((a + a) * (b + b) * 5).tdiv 4
        + ((a + a).tdiv 2) * ((b + b).tdiv 2)
      = ((a + a) * (b + b) * 3).tdiv 2
    rw [e1, e3, e4, e5, Int.mul_tdiv_cancel_left _ h4,
      Int.mul_tdiv_cancel_left _ h2, Int.mul_tdiv_cancel_left _ h2,
      Int.mul_tdiv_cancel_left _ h2]
    ring

/-- Witness for C2 at the concrete even dimensions `w = 6`, `h = 4`. -/
theorem yuv420_plane_layout_law_witness :
    Even (6 : Int) ∧ Even (4 : Int) ∧
    (PlaneOffsetLaw 6 4 ∧
     (∀ (s : decoder_state) (r : Int) (st : xvid_dec_stats) (t u v : Bool),
       (decode_frame s r st t u v).layout = planeLayout s.width s.height) ∧
     (∀ (e : encoder_state) (fk r : Int) (st : xvid_enc_stats),
       (encode_frame e fk r st).layout = planeLayout e.width e.height)) :=
  ⟨⟨3, rfl⟩, ⟨2, rfl⟩, yuv420_plane_layout_law 6 4 ⟨3, rfl⟩ ⟨2, rfl⟩⟩

/-- C10: each of the three output pointers of `decode_frame` may
independently be `NULL`: a value is written through a pointer exactly
when it is supplied, and in all cases the decode is still performed
(the state update and geometry are independent of the pointers) and the
underlying result code is returned. -/
theorem decode_frame_null_output_pointers
    (s : decoder_state) (r : Int) (st : xvid_dec_stats) (t u v : Bool) :
    (decode_frame s r st t u v).ret = r ∧
    ((decode_frame s r st t u v).out_type = none ↔ t = false) ∧
    ((decode_frame s r st t u v).out_width = none ↔ u = false) ∧
    ((decode_frame s r st t u v).out_height = none ↔ v = false) ∧
    (decode_frame s r st t u v).newState =
      (decode_frame s r st true true true).newState ∧
    (decode_frame s r st t u v).layout =
      (decode_frame s r st true true true).layout := by
  cases t <;> cases u <;> cases v <;>
    simp [decode_frame]

/-- C3 counterexample: closing the video decoder session a second time
after a successful close is not a no-op — the dangling pointer passes
the `NULL` check and the freed state is read and freed again, a fault. -/
theorem double_close_decoder_faults :
    (close_decoder (close_decoder (SessionMem.live ⟨1, 0, 0⟩)).2).1 =
      CloseOutcome.fault := rfl

/-- C3 amended: closing a `NULL` session (the failure result of a video
`Create`) is a no-op for the video decoder and encoder, while the audio
close forwards even a `NULL` handle to the codec library unchecked; but
calling close a second time on the same already-freed session is a
use-after-free fault for all three components, not a no-op. -/
theorem close_null_noop_but_double_close_faults :
    close_decoder SessionMem.null = (CloseOutcome.noop, SessionMem.null) ∧
    close_encoder SessionMem.null = (CloseOutcome.noop, SessionMem.null) ∧
    close_lame SessionMem.null =
      (LameCloseOutcome.delegatedNull, SessionMem.null) ∧
    (∀ s : decoder_state,
      (close_decoder (close_decoder (SessionMem.live s)).2).1 =
        CloseOutcome.fault) ∧
    (∀ e : encoder_state,
      (close_encoder (close_encoder (SessionMem.live e)).2).1 =
        CloseOutcome.fault) ∧
    (∀ g : lame_global_flags,
      (close_lame (close_lame (SessionMem.live g)).2).1 =
        LameCloseOutcome.fault) :=
  ⟨rfl, rfl, rfl, fun _ => rfl, fun _ => rfl, fun _ => rfl⟩

/-- C4: at the failing input where the wrapper-level `malloc` fails but
the codec-context creation succeeds (return code 0, handle 7), both
video `Create` paths dereference the `NULL` wrapper pointer and leak the
created codec context, instead of returning a clean failure. -/
theorem init_malloc_failure_null_deref :
    (init_decoder 0 0 false 0 7).2 = CreateOutcome.nullDeref 7 ∧
    (init_encoder 176 144 500000 25 1 false 0 7).2 =
      CreateOutcome.nullDeref 7 := by
  constructor <;> rfl

/-- C5: the audio `Create` returns the codec handle unconditionally —
its result does not depend on the return code of the library's
parameter-validation step, which is discarded. -/
theorem init_lame_returns_handle_unconditionally
    (c srate b : Int) (g : Ptr) (r : Int) :
    (init_lame c srate b g r).1 = g ∧
    (∀ r' : Int, init_lame c srate b g r = init_lame c srate b g r') :=
  ⟨rfl, fun _ => rfl⟩

/-- C6: `encode_frame` returns the stats length (the number of
compressed bytes) when the underlying encode step's result is positive,
and returns a zero or negative result unmodified. -/
theorem encode_frame_return_value
    (e : encoder_state) (fk r : Int) (st : xvid_enc_stats) :
    (0 < r → (encode_frame e fk r st).ret = st.length) ∧
    (r ≤ 0 → (encode_frame e fk r st).ret = r) := by
  refine ⟨fun hpos => ?_, fun hnonpos => ?_⟩
  · simp [encode_frame, hpos]
  · have hnot : ¬ r > 0 := not_lt.mpr hnonpos
    simp [encode_frame, hnot]

/-- Witness for C6: a positive result 5 yields the stats length 42, and
a negative result -3 is passed through. -/
theorem encode_frame_return_value_witness :
    (encode_frame ⟨1, 176, 144⟩ 0 5 ⟨42⟩).ret = 42 ∧
    (encode_frame ⟨1, 176, 144⟩ 0 (-3) ⟨42⟩).ret = -3 :=
  ⟨(encode_frame_return_value ⟨1, 176, 144⟩ 0 5 ⟨42⟩).1 (by decide),
   (encode_frame_return_value ⟨1, 176, 144⟩ 0 (-3) ⟨42⟩).2 (by decide)⟩

/-- C7: the video encoder `Create` fills the encoder-creation
configuration with exactly the given width and height, frame increment
equal to the frame-rate denominator, frame base equal to the frame-rate
numerator, no zones, no plugins, zero extra threads, zero B-frames, and
a maximum keyframe interval of 250. -/
theorem init_encoder_configuration
    (w h br fn fd : Int) (m : Bool) (cr : Int) (ch : Ptr) :
    (init_encoder w h br fn fd m cr ch).1.width = w ∧
    (init_encoder w h br fn fd m cr ch).1.height = h ∧
    (init_encoder w h br fn fd m cr ch).1.fincr = fd ∧
    (init_encoder w h br fn fd m cr ch).1.fbase = fn ∧
    (init_encoder w h br fn fd m cr ch).1.zones = nullPtr ∧
    (init_encoder w h br fn fd m cr ch).1.num_zones = 0 ∧
    (init_encoder w h br fn fd m cr ch).1.plugins = nullPtr ∧
    (init_encoder w h br fn fd m cr ch).1.num_plugins = 0 ∧
    (init_encoder w h br fn fd m cr ch).1.num_threads = 0 ∧
    (init_encoder w h br fn fd m cr ch).1.max_bframes = 0 ∧
    (init_encoder w h br fn fd m cr ch).1.max_key_interval = 250 :=
  ⟨rfl, rfl, rfl, rfl, rfl, rfl, rfl, rfl, rfl, rfl, rfl⟩

/-- C8: the audio `Create` configures the codec with a bitrate equal to
the truncating integer quotient of the bits-per-second argument by 1000,
sets the output sample rate equal to the input sample rate, and disables
the VBR tag. -/
theorem init_lame_configuration
    (c srate b : Int) (g : Ptr) (r : Int) :
    (init_lame c srate b g r).2.brate = b.tdiv 1000 ∧
    (init_lame c srate b g r).2.in_samplerate = srate ∧
    (init_lame c srate b g r).2.out_samplerate = srate ∧
    (init_lame c srate b g r).2.out_samplerate =
      (init_lame c srate b g r).2.in_samplerate ∧
    (init_lame c srate b g r).2.bWriteVbrTag = 0 :=
  ⟨rfl, rfl, rfl, rfl, rfl⟩

end Bridge
